import Mathlib

/-!
Shallow embedding of the weather-summary program
(`src/plus-weather-project-template.py`).

Python numbers are modelled as rationals (`ℚ`): every numeric value the
program manipulates on the inputs of interest is an exact decimal, so `ℚ`
captures the arithmetic, and the Python `round(x, 1)` (round-half-to-even)
is modelled exactly on `ℚ`.  Python functions that may raise an exception
are modelled as `Option`-valued; `none` stands for an uncaught exception
(`ValueError` from `datetime.fromisoformat`, unpacking of an empty tuple).
-/

namespace Weather

/-- `DEGREE_SYMBOL = u"\N{DEGREE SIGN}C"` from the source. -/
def DEGREE_SYMBOL : String := "°C"

/-- The Python `round` to an integer: round-half-to-even, exact on
rationals. -/
def roundHalfEven (q : ℚ) : ℤ :=
  if q - ⌊q⌋ < 1/2 then ⌊q⌋
  else if 1/2 < q - ⌊q⌋ then ⌊q⌋ + 1
  else if ⌊q⌋ % 2 = 0 then ⌊q⌋ else ⌊q⌋ + 1

/-- The Python `round(x, 1)`: round to one decimal place, half to even. -/
def pyRound1 (q : ℚ) : ℚ := (roundHalfEven (q * 10) : ℚ) / 10

/-- Decimal digit of a character, `int(c)` on a digit character. -/
def digitVal (c : Char) : ℕ := c.toNat - 48

/-- Renders a rational that is an exact multiple of `1/10` the way Python
renders the corresponding `float` (`f"{x}"`): optional sign, integer part,
a dot, and one decimal digit, e.g. `-1.1`, `0.0`, `100.0`. -/
def floatRepr (q : ℚ) : String :=
  (if ⌊q * 10⌋ < 0 then "-" else "") ++
    toString (⌊q * 10⌋.natAbs / 10) ++ "." ++ toString (⌊q * 10⌋.natAbs % 10)

/-- `format_temperature(temp)`: `f"{temp}{DEGREE_SYMBOL}"`.  Every call site
in the program passes a one-decimal float, rendered by `floatRepr`. -/
def format_temperature (temp : ℚ) : String :=
  floatRepr temp ++ DEGREE_SYMBOL

/-- Number of days of a Gregorian month, as `datetime` validates it. -/
def daysInMonth (y m : ℕ) : ℕ :=
  if m = 2 then
    (if y % 4 = 0 ∧ (y % 100 ≠ 0 ∨ y % 400 = 0) then 29 else 28)
  else if m = 4 ∨ m = 6 ∨ m = 9 ∨ m = 11 then 30
  else 31

/-- Splits the characters after the date separator at the first `+` or `-`
(the start of a UTC offset), as `fromisoformat` does: returns the time
characters and, when a sign was found, the offset characters after it. -/
def splitTz : List Char → List Char × Option (List Char)
  | [] => ([], none)
  | c :: rest =>
    if c = '+' ∨ c = '-' then ([], some rest)
    else
      let (t, z) := splitTz rest
      (c :: t, z)

/-- Validates a time component `HH`, `HH:MM`, `HH:MM:SS`, `HH:MM:SS.fff`
or `HH:MM:SS.ffffff` with hour at most 23 and minute/second at most 59
(the ranges the `time` constructor enforces). -/
def validHMSF (cs : List Char) : Bool :=
  match cs with
  | [h1, h2] =>
    h1.isDigit && h2.isDigit && digitVal h1 * 10 + digitVal h2 ≤ 23
  | [h1, h2, ':', m1, m2] =>
    h1.isDigit && h2.isDigit && m1.isDigit && m2.isDigit &&
      digitVal h1 * 10 + digitVal h2 ≤ 23 && digitVal m1 * 10 + digitVal m2 ≤ 59
  | [h1, h2, ':', m1, m2, ':', s1, s2] =>
    h1.isDigit && h2.isDigit && m1.isDigit && m2.isDigit && s1.isDigit && s2.isDigit &&
      digitVal h1 * 10 + digitVal h2 ≤ 23 && digitVal m1 * 10 + digitVal m2 ≤ 59 &&
      digitVal s1 * 10 + digitVal s2 ≤ 59
  | [h1, h2, ':', m1, m2, ':', s1, s2, '.', f1, f2, f3] =>
    h1.isDigit && h2.isDigit && m1.isDigit && m2.isDigit && s1.isDigit && s2.isDigit &&
      f1.isDigit && f2.isDigit && f3.isDigit &&
      digitVal h1 * 10 + digitVal h2 ≤ 23 && digitVal m1 * 10 + digitVal m2 ≤ 59 &&
      digitVal s1 * 10 + digitVal s2 ≤ 59
  | [h1, h2, ':', m1, m2, ':', s1, s2, '.', f1, f2, f3, f4, f5, f6] =>
    h1.isDigit && h2.isDigit && m1.isDigit && m2.isDigit && s1.isDigit && s2.isDigit &&
      f1.isDigit && f2.isDigit && f3.isDigit && f4.isDigit && f5.isDigit && f6.isDigit &&
      digitVal h1 * 10 + digitVal h2 ≤ 23 && digitVal m1 * 10 + digitVal m2 ≤ 59 &&
      digitVal s1 * 10 + digitVal s2 ≤ 59
  | _ => false

/-- Validates a UTC offset `HH:MM`, `HH:MM:SS` or `HH:MM:SS.ffffff` after
the sign, with components bounded so the offset stays under 24 hours. -/
def validTz (cs : List Char) : Bool :=
  match cs with
  | [h1, h2, ':', m1, m2] =>
    h1.isDigit && h2.isDigit && m1.isDigit && m2.isDigit &&
      digitVal h1 * 10 + digitVal h2 ≤ 23 && digitVal m1 * 10 + digitVal m2 ≤ 59
  | [h1, h2, ':', m1, m2, ':', s1, s2] =>
    h1.isDigit && h2.isDigit && m1.isDigit && m2.isDigit && s1.isDigit && s2.isDigit &&
      digitVal h1 * 10 + digitVal h2 ≤ 23 && digitVal m1 * 10 + digitVal m2 ≤ 59 &&
      digitVal s1 * 10 + digitVal s2 ≤ 59
  | [h1, h2, ':', m1, m2, ':', s1, s2, '.', f1, f2, f3, f4, f5, f6] =>
    h1.isDigit && h2.isDigit && m1.isDigit && m2.isDigit && s1.isDigit && s2.isDigit &&
      f1.isDigit && f2.isDigit && f3.isDigit && f4.isDigit && f5.isDigit && f6.isDigit &&
      digitVal h1 * 10 + digitVal h2 ≤ 23 && digitVal m1 * 10 + digitVal m2 ≤ 59 &&
      digitVal s1 * 10 + digitVal s2 ≤ 59
  | _ => false

/-- Validates the characters after the single separator character that
follows the date: a time, optionally followed by a signed UTC offset. -/
def validTimeTail (cs : List Char) : Bool :=
  match splitTz cs with
  | (t, none) => validHMSF t
  | (t, some z) => validHMSF t && validTz z

/-- Models `datetime.fromisoformat` (the grammar documented for Python 3.7
through 3.10, which every later version also accepts):
`YYYY-MM-DD[*HH[:MM[:SS[.fff[fff]]]]][+HH:MM[:SS[.ffffff]]]` — a valid
proleptic-Gregorian calendar date with year in `1..9999`, optionally
followed by one separator character (any character) and a time, itself
optionally followed by a UTC offset introduced by `+` or `-`.  Returns the
date fields, the only ones the subsequent strftime rendering uses;
`none` models the `ValueError`. -/
def fromisoformat (s : String) : Option (ℕ × ℕ × ℕ) :=
  match s.toList with
  | y1 :: y2 :: y3 :: y4 :: '-' :: m1 :: m2 :: '-' :: d1 :: d2 :: rest =>
    if y1.isDigit && y2.isDigit && y3.isDigit && y4.isDigit &&
       m1.isDigit && m2.isDigit && d1.isDigit && d2.isDigit then
      let y := digitVal y1 * 1000 + digitVal y2 * 100 + digitVal y3 * 10 + digitVal y4
      let m := digitVal m1 * 10 + digitVal m2
      let d := digitVal d1 * 10 + digitVal d2
      if 1 ≤ y ∧ 1 ≤ m ∧ m ≤ 12 ∧ 1 ≤ d ∧ d ≤ daysInMonth y m then
        match rest with
        | [] => some (y, m, d)
        | _ :: timeChars => if validTimeTail timeChars then some (y, m, d) else none
      else none
    else none
  | _ => none

/-- Day of week by the Zeller congruence: `0 = Saturday, 1 = Sunday, ...,
6 = Friday`.  Models the weekday computation behind the strftime code `%A`. -/
def zellerDow (y m d : ℕ) : ℕ :=
  let yy := if m ≤ 2 then y - 1 else y
  let mm := if m ≤ 2 then m + 12 else m
  let K := yy % 100
  let J := yy / 100
  (d + 13 * (mm + 1) / 5 + K + K / 4 + J / 4 + 5 * J) % 7

/-- Full weekday name (`%A`, C locale) from the Zeller day number. -/
def weekdayName (h : ℕ) : String :=
  match h with
  | 0 => "Saturday"
  | 1 => "Sunday"
  | 2 => "Monday"
  | 3 => "Tuesday"
  | 4 => "Wednesday"
  | 5 => "Thursday"
  | 6 => "Friday"
  | _ => ""

/-- Full month name (`%B`, C locale). -/
def monthName (m : ℕ) : String :=
  match m with
  | 1 => "January"
  | 2 => "February"
  | 3 => "March"
  | 4 => "April"
  | 5 => "May"
  | 6 => "June"
  | 7 => "July"
  | 8 => "August"
  | 9 => "September"
  | 10 => "October"
  | 11 => "November"
  | 12 => "December"
  | _ => ""

/-- Two-digit zero-padded day-of-month (`%d`). -/
def pad2 (n : ℕ) : String :=
  if n < 10 then "0" ++ toString n else toString n

/-- The strftime rendering with code string `%A %d %B %Y`, applied to a
calendar date. -/
def strftimeFull (y m d : ℕ) : String :=
  weekdayName (zellerDow y m d) ++ " " ++ pad2 d ++ " " ++ monthName m ++ " " ++ toString y

/-- `convert_date(iso_string)`: `datetime.fromisoformat` followed by
the strftime rendering `%A %d %B %Y`; `none` models the propagated
`ValueError`. -/
def convert_date (iso_string : String) : Option String :=
  (fromisoformat iso_string).map (fun ymd => strftimeFull ymd.1 ymd.2.1 ymd.2.2)

/-- `convert_f_to_c(temp_in_fahrenheit)`: `(t - 32) * 5 / 9` rounded to one
decimal place by the Python `round` with second argument `1`. -/
def convert_f_to_c (temp_in_fahrenheit : ℚ) : ℚ :=
  pyRound1 ((temp_in_fahrenheit - 32) * 5 / 9)

/-- `calculate_mean(weather_data)`: `0` on the empty list, otherwise
`sum(weather_data) / len(weather_data)`. -/
def calculate_mean (weather_data : List ℚ) : ℚ :=
  if weather_data = [] then 0
  else weather_data.sum / (weather_data.length : ℚ)

/-- Python `min` of a non-empty list (head-seeded left fold). -/
def listMin (l : List ℚ) : ℚ :=
  match l with
  | [] => 0
  | x :: xs => xs.foldl min x

/-- Python `max` of a non-empty list (head-seeded left fold). -/
def listMax (l : List ℚ) : ℚ :=
  match l with
  | [] => 0
  | x :: xs => xs.foldl max x

/-- `find_min(weather_data)`: `()` (here `none`) on the empty list,
otherwise the minimum value paired with
`len(l) - 1 - l[::-1].index(min_value)`, the index of its last occurrence. -/
def find_min (weather_data : List ℚ) : Option (ℚ × ℕ) :=
  match weather_data with
  | [] => none
  | x :: xs =>
    let l := x :: xs
    let min_value := listMin l
    let min_index := l.length - 1 - l.reverse.indexOf min_value
    some (min_value, min_index)

/-- `find_max(weather_data)`: `()` (here `none`) on the empty list,
otherwise the maximum value paired with
`len(l) - 1 - l[::-1].index(max_value)`, the index of its last occurrence. -/
def find_max (weather_data : List ℚ) : Option (ℚ × ℕ) :=
  match weather_data with
  | [] => none
  | x :: xs =>
    let l := x :: xs
    let max_value := listMax l
    let max_index := l.length - 1 - l.reverse.indexOf max_value
    some (max_value, max_index)

/-- A row `[date, min_temp, max_temp]` of the dataset (`day[0]`, `day[1]`,
`day[2]` in the source). -/
structure DailyRecord where
  date : String
  min_temp : ℚ
  max_temp : ℚ
deriving DecidableEq, Repr

/-- `generate_summary(weather_data)` from the source: the empty-dataset
check, column extraction, extremes with last-occurrence indices, date
resolution, conversion/formatting, and the fixed five-line template.
`none` models a propagated exception (unpacking `()` or a date
`ValueError`); neither occurs on a non-empty dataset with parseable dates. -/
def generate_summary (weather_data : List DailyRecord) : Option String :=
  if weather_data = [] then some "No data available."
  else
    let min_temps := weather_data.map (fun day => day.min_temp)
    let max_temps := weather_data.map (fun day => day.max_temp)
    match find_min min_temps, find_max max_temps with
    | some (min_temp, min_temp_day), some (max_temp, max_temp_day) =>
      match convert_date (weather_data.getD min_temp_day ⟨"", 0, 0⟩).date,
            convert_date (weather_data.getD max_temp_day ⟨"", 0, 0⟩).date with
      | some min_temp_date, some max_temp_date =>
        let min_temp_c := format_temperature (convert_f_to_c min_temp)
        let max_temp_c := format_temperature (convert_f_to_c max_temp)
        let avg_min_temp := format_temperature (pyRound1 (convert_f_to_c (calculate_mean min_temps)))
        let avg_max_temp := format_temperature (pyRound1 (convert_f_to_c (calculate_mean max_temps)))
        some (toString weather_data.length ++ " Day Overview\n" ++
          "  The lowest temperature will be " ++ min_temp_c ++
          ", and will occur on " ++ min_temp_date ++ ".\n" ++
          "  The highest temperature will be " ++ max_temp_c ++
          ", and will occur on " ++ max_temp_date ++ ".\n" ++
          "  The average low this week is " ++ avg_min_temp ++ ".\n" ++
          "  The average high this week is " ++ avg_max_temp ++ ".\n")
      | _, _ => none
    | _, _ => none

/-- Loop body of `generate_daily_summary`: appends the dashed date header,
the two temperature lines and a blank line for one record to the
accumulated summary; a date `ValueError` propagates (`none`). -/
def dailyStep (acc : Option String) (day : DailyRecord) : Option String :=
  acc.bind (fun s =>
    (convert_date day.date).map (fun date =>
      s ++ "---- " ++ date ++ " ----\n" ++
      "  Minimum Temperature: " ++ format_temperature (convert_f_to_c day.min_temp) ++ "\n" ++
      "  Maximum Temperature: " ++ format_temperature (convert_f_to_c day.max_temp) ++ "\n\n"))

/-- `generate_daily_summary(weather_data)`: starts from `summary = ""` and
runs the loop body over the records in order. -/
def generate_daily_summary (weather_data : List DailyRecord) : Option String :=
  weather_data.foldl dailyStep (some "")

/-- The three-line block (plus trailing blank line) the spec prescribes
for one record of the daily summary. -/
def dailyBlock (day : DailyRecord) : String :=
  "---- " ++ (convert_date day.date).getD "" ++ " ----\n" ++
  "  Minimum Temperature: " ++ format_temperature (convert_f_to_c day.min_temp) ++ "\n" ++
  "  Maximum Temperature: " ++ format_temperature (convert_f_to_c day.max_temp) ++ "\n\n"

/-- Concatenation of the per-record blocks, in input order, one block per
record (the spec-side description of the daily summary). -/
def dailyBlocks : List DailyRecord → String
  | [] => ""
  | day :: rest => dailyBlock day ++ dailyBlocks rest

/-! ### Rounding lemmas -/

/-- Round-half-to-even is within `1/2` of its argument. -/
lemma abs_roundHalfEven_sub_le (q : ℚ) : |(roundHalfEven q : ℚ) - q| ≤ 1/2 := by
  have h1 : (⌊q⌋ : ℚ) ≤ q := Int.floor_le q
  have h2 : q < ⌊q⌋ + 1 := Int.lt_floor_add_one q
  unfold roundHalfEven
  split_ifs with ha hb hc <;> rw [abs_le] <;> push_cast <;> constructor <;> linarith

/-- Rounding to one decimal place moves the value by at most `1/20`. -/
lemma abs_pyRound1_sub_le (q : ℚ) : |pyRound1 q - q| ≤ 1/20 := by
  have h := abs_roundHalfEven_sub_le (q * 10)
  have e : pyRound1 q - q = ((roundHalfEven (q * 10) : ℚ) - q * 10) / 10 := by
    unfold pyRound1; ring
  rw [e, abs_div, show |(10 : ℚ)| = 10 by norm_num]
  linarith

/-! ### Folded minimum / maximum -/

lemma foldl_min_le_init (xs : List ℚ) (a : ℚ) : xs.foldl min a ≤ a := by
  induction xs generalizing a with
  | nil => simp
  | cons x xs ih =>
    exact le_trans (ih (min a x)) (min_le_left a x)

lemma foldl_min_le_mem (xs : List ℚ) (a : ℚ) : ∀ x ∈ xs, xs.foldl min a ≤ x := by
  induction xs generalizing a with
  | nil => intro x hx; cases hx
  | cons y ys ih =>
    intro x hx
    rcases List.mem_cons.1 hx with rfl | hx2
    · exact le_trans (foldl_min_le_init ys (min a x)) (min_le_right a x)
    · exact ih (min a y) x hx2

lemma foldl_min_mem (xs : List ℚ) (a : ℚ) : xs.foldl min a = a ∨ xs.foldl min a ∈ xs := by
  induction xs generalizing a with
  | nil => left; rfl
  | cons y ys ih =>
    show ys.foldl min (min a y) = a ∨ ys.foldl min (min a y) ∈ y :: ys
    rcases ih (min a y) with h | h
    · rcases min_cases a y with ⟨h2, _⟩ | ⟨h2, _⟩
      · left; rw [h, h2]
      · right; rw [h, h2]; exact List.mem_cons_self y ys
    · right; exact List.mem_cons_of_mem y h

lemma foldl_max_ge_init (xs : List ℚ) (a : ℚ) : a ≤ xs.foldl max a := by
  induction xs generalizing a with
  | nil => simp
  | cons x xs ih =>
    exact le_trans (le_max_left a x) (ih (max a x))

lemma foldl_max_ge_mem (xs : List ℚ) (a : ℚ) : ∀ x ∈ xs, x ≤ xs.foldl max a := by
  induction xs generalizing a with
  | nil => intro x hx; cases hx
  | cons y ys ih =>
    intro x hx
    rcases List.mem_cons.1 hx with rfl | hx2
    · exact le_trans (le_max_right a x) (foldl_max_ge_init ys (max a x))
    · exact ih (max a y) x hx2

lemma foldl_max_mem (xs : List ℚ) (a : ℚ) : xs.foldl max a = a ∨ xs.foldl max a ∈ xs := by
  induction xs generalizing a with
  | nil => left; rfl
  | cons y ys ih =>
    show ys.foldl max (max a y) = a ∨ ys.foldl max (max a y) ∈ y :: ys
    rcases ih (max a y) with h | h
    · rcases max_cases a y with ⟨h2, _⟩ | ⟨h2, _⟩
      · left; rw [h, h2]
      · right; rw [h, h2]; exact List.mem_cons_self y ys
    · right; exact List.mem_cons_of_mem y h

lemma listMin_mem (l : List ℚ) (h : l ≠ []) : listMin l ∈ l := by
  match l with
  | x :: xs =>
    show xs.foldl min x ∈ x :: xs
    rcases foldl_min_mem xs x with h1 | h1
    · rw [h1]; exact List.mem_cons_self x xs
    · exact List.mem_cons_of_mem x h1

lemma listMin_le (l : List ℚ) : ∀ x ∈ l, listMin l ≤ x := by
  match l with
  | [] => intro x hx; cases hx
  | y :: ys =>
    intro x hx
    show ys.foldl min y ≤ x
    rcases List.mem_cons.1 hx with rfl | hx2
    · exact foldl_min_le_init ys x
    · exact foldl_min_le_mem ys y x hx2

lemma listMax_mem (l : List ℚ) (h : l ≠ []) : listMax l ∈ l := by
  match l with
  | x :: xs =>
    show xs.foldl max x ∈ x :: xs
    rcases foldl_max_mem xs x with h1 | h1
    · rw [h1]; exact List.mem_cons_self x xs
    · exact List.mem_cons_of_mem x h1

lemma listMax_ge (l : List ℚ) : ∀ x ∈ l, x ≤ listMax l := by
  match l with
  | [] => intro x hx; cases hx
  | y :: ys =>
    intro x hx
    show x ≤ ys.foldl max y
    rcases List.mem_cons.1 hx with rfl | hx2
    · exact foldl_max_ge_init ys x
    · exact foldl_max_ge_mem ys y x hx2

/-! ### Index of the last occurrence -/

lemma get_idx_congr (l : List ℚ) {i1 i2 : ℕ} (h1 : i1 < l.length)
    (h2 : i2 < l.length) (he : i1 = i2) : l.get ⟨i1, h1⟩ = l.get ⟨i2, h2⟩ := by
  subst he; rfl

lemma get_ne_of_lt_indexOf (l : List ℚ) (a : ℚ) (j : ℕ) (hj : j < l.length)
    (h : j < l.indexOf a) : l.get ⟨j, hj⟩ ≠ a := by
  induction l generalizing j with
  | nil => exact absurd hj (Nat.not_lt_zero j)
  | cons x xs ih =>
    by_cases hxa : x = a
    · subst hxa
      rw [List.indexOf_cons_self] at h
      exact absurd h (Nat.not_lt_zero j)
    · rw [List.indexOf_cons_ne _ hxa] at h
      cases j with
      | zero => simpa using hxa
      | succ j =>
        have := ih j (Nat.lt_of_succ_lt_succ hj) (Nat.lt_of_succ_lt_succ h)
        simpa using this

/-- `len(l) - 1 - l[::-1].index(a)` is the index of the last occurrence of
`a` in `l`: it is in range, holds `a`, and no later position holds `a`. -/
lemma last_occurrence_spec (l : List ℚ) (a : ℚ) (h : a ∈ l) :
    ∃ hi : l.length - 1 - l.reverse.indexOf a < l.length,
      l.get ⟨l.length - 1 - l.reverse.indexOf a, hi⟩ = a ∧
        ∀ j (hj : j < l.length), l.length - 1 - l.reverse.indexOf a < j →
          l.get ⟨j, hj⟩ ≠ a := by
  have hrev : a ∈ l.reverse := List.mem_reverse.2 h
  have hlen : l.reverse.length = l.length := List.length_reverse l
  have hk : l.reverse.indexOf a < l.reverse.length := List.indexOf_lt_length.2 hrev
  have hk2 : l.reverse.indexOf a < l.length := hlen ▸ hk
  have hn : 0 < l.length := List.length_pos.2 (List.ne_nil_of_mem h)
  have hi : l.length - 1 - l.reverse.indexOf a < l.length := by omega
  refine ⟨hi, ?_, ?_⟩
  · have hg : l.reverse.get ⟨l.reverse.indexOf a, hk⟩ = a := List.indexOf_get hk
    rw [List.get_reverse' l ⟨l.reverse.indexOf a, hk⟩ hi] at hg
    exact hg
  · intro j hj hgt heq
    have hj2len : l.length - 1 - j < l.reverse.length := by omega
    have hj2idx : l.length - 1 - j < l.reverse.indexOf a := by omega
    have hback : l.length - 1 - (l.length - 1 - j) < l.length := by omega
    have hg2 : l.reverse.get ⟨l.length - 1 - j, hj2len⟩ =
        l.get ⟨l.length - 1 - (l.length - 1 - j), hback⟩ :=
      List.get_reverse' l ⟨l.length - 1 - j, hj2len⟩ hback
    have hg3 : l.reverse.get ⟨l.length - 1 - j, hj2len⟩ = a := by
      rw [hg2, get_idx_congr l hback hj (by omega)]
      exact heq
    exact get_ne_of_lt_indexOf l.reverse a (l.length - 1 - j) hj2len hj2idx hg3

/-- `find_min` on a non-empty list: the minimum together with the index of
its last occurrence. -/
lemma find_min_spec (l : List ℚ) (h : l ≠ []) :
    ∃ v i, find_min l = some (v, i) ∧ v ∈ l ∧ (∀ x ∈ l, v ≤ x) ∧
      ∃ hi : i < l.length, l.get ⟨i, hi⟩ = v ∧
        ∀ j (hj : j < l.length), i < j → l.get ⟨j, hj⟩ ≠ v := by
  match l with
  | x :: xs =>
    have hmem : listMin (x :: xs) ∈ x :: xs := listMin_mem _ (List.cons_ne_nil x xs)
    exact ⟨listMin (x :: xs),
      (x :: xs).length - 1 - (x :: xs).reverse.indexOf (listMin (x :: xs)),
      rfl, hmem, listMin_le _, last_occurrence_spec _ _ hmem⟩

/-- `find_max` on a non-empty list: the maximum together with the index of
its last occurrence. -/
lemma find_max_spec (l : List ℚ) (h : l ≠ []) :
    ∃ v i, find_max l = some (v, i) ∧ v ∈ l ∧ (∀ x ∈ l, x ≤ v) ∧
      ∃ hi : i < l.length, l.get ⟨i, hi⟩ = v ∧
        ∀ j (hj : j < l.length), i < j → l.get ⟨j, hj⟩ ≠ v := by
  match l with
  | x :: xs =>
    have hmem : listMax (x :: xs) ∈ x :: xs := listMax_mem _ (List.cons_ne_nil x xs)
    exact ⟨listMax (x :: xs),
      (x :: xs).length - 1 - (x :: xs).reverse.indexOf (listMax (x :: xs)),
      rfl, hmem, listMax_ge _, last_occurrence_spec _ _ hmem⟩

/-! ### Report generators -/

/-- Unfolding of `generate_summary` on a non-empty dataset: given the
results of the extreme searches and the two date lookups, the output is
the five-line template; the two average fields are the column mean,
converted to Celsius (`convert_f_to_c` already rounds to one decimal), and
rounded to one decimal a second time. -/
lemma generate_summary_eq (weather_data : List DailyRecord) (v1 v2 : ℚ)
    (i1 i2 : ℕ) (d1 d2 : String)
    (h1 : find_min (weather_data.map (fun day => day.min_temp)) = some (v1, i1))
    (h2 : find_max (weather_data.map (fun day => day.max_temp)) = some (v2, i2))
    (h3 : convert_date (weather_data.getD i1 ⟨"", 0, 0⟩).date = some d1)
    (h4 : convert_date (weather_data.getD i2 ⟨"", 0, 0⟩).date = some d2) :
    generate_summary weather_data =
      some (toString weather_data.length ++ " Day Overview\n" ++
        "  The lowest temperature will be " ++ format_temperature (convert_f_to_c v1) ++
        ", and will occur on " ++ d1 ++ ".\n" ++
        "  The highest temperature will be " ++ format_temperature (convert_f_to_c v2) ++
        ", and will occur on " ++ d2 ++ ".\n" ++
        "  The average low this week is " ++
        format_temperature (pyRound1 (convert_f_to_c
          (calculate_mean (weather_data.map (fun day => day.min_temp))))) ++ ".\n" ++
        "  The average high this week is " ++
        format_temperature (pyRound1 (convert_f_to_c
          (calculate_mean (weather_data.map (fun day => day.max_temp))))) ++ ".\n") := by
  have hne : weather_data ≠ [] := by
    intro he
    rw [he] at h1
    exact Option.noConfusion (h1.symm.trans rfl)
  unfold generate_summary
  rw [if_neg hne]
  simp only [h1, h2, h3, h4]

lemma str_empty_append (s : String) : "" ++ s = s := by
  simp

/-- The daily-summary loop, started from accumulator `s`, appends one block
per record in input order. -/
lemma daily_fold (l : List DailyRecord) : ∀ s : String,
    (∀ day ∈ l, (convert_date day.date).isSome = true) →
    l.foldl dailyStep (some s) = some (s ++ dailyBlocks l) := by
  induction l with
  | nil =>
    intro s _
    simp [dailyBlocks, String.append_empty]
  | cons day rest ih =>
    intro s h
    have hd : (convert_date day.date).isSome = true := h day (List.mem_cons_self day rest)
    obtain ⟨date, hdate⟩ := Option.isSome_iff_exists.1 hd
    have hstep : dailyStep (some s) day = some (s ++ dailyBlock day) := by
      simp [dailyStep, dailyBlock, hdate, String.append_assoc]
    show List.foldl dailyStep (dailyStep (some s) day) rest = _
    rw [hstep, ih (s ++ dailyBlock day) (fun d hd2 => h d (List.mem_cons_of_mem day hd2))]
    rw [Option.some.injEq]
    show (s ++ dailyBlock day) ++ dailyBlocks rest = s ++ dailyBlocks (day :: rest)
    rw [String.append_assoc]
    rfl

/-! ### Claim theorems -/

/-- C1: for every non-empty list of numbers, `find_min` returns the minimum
value together with the index of its last occurrence, and `find_max` the
maximum value together with the index of its last occurrence (ties resolve
to the highest index); in particular `find_min [1,2,0,0,5] = some (0, 3)`. -/
theorem find_min_find_max_last_occurrence :
    (∀ l : List ℚ, l ≠ [] →
      ∃ v i, find_min l = some (v, i) ∧ v ∈ l ∧ (∀ x ∈ l, v ≤ x) ∧
        ∃ hi : i < l.length, l.get ⟨i, hi⟩ = v ∧
          ∀ j (hj : j < l.length), i < j → l.get ⟨j, hj⟩ ≠ v) ∧
    (∀ l : List ℚ, l ≠ [] →
      ∃ v i, find_max l = some (v, i) ∧ v ∈ l ∧ (∀ x ∈ l, x ≤ v) ∧
        ∃ hi : i < l.length, l.get ⟨i, hi⟩ = v ∧
          ∀ j (hj : j < l.length), i < j → l.get ⟨j, hj⟩ ≠ v) ∧
    find_min [1, 2, 0, 0, 5] = some (0, 3) :=
  ⟨find_min_spec, find_max_spec, by decide⟩

/-- Witness for C1 at the list `[1, 2, 0, 0, 5]`. -/
theorem find_min_find_max_last_occurrence_witness :
    (∃ v i, find_min [(1 : ℚ), 2, 0, 0, 5] = some (v, i) ∧
      v ∈ [(1 : ℚ), 2, 0, 0, 5] ∧ (∀ x ∈ [(1 : ℚ), 2, 0, 0, 5], v ≤ x) ∧
      ∃ hi : i < [(1 : ℚ), 2, 0, 0, 5].length,
        [(1 : ℚ), 2, 0, 0, 5].get ⟨i, hi⟩ = v ∧
        ∀ j (hj : j < [(1 : ℚ), 2, 0, 0, 5].length), i < j →
          [(1 : ℚ), 2, 0, 0, 5].get ⟨j, hj⟩ ≠ v) ∧
    (∃ v i, find_max [(1 : ℚ), 2, 0, 0, 5] = some (v, i) ∧
      v ∈ [(1 : ℚ), 2, 0, 0, 5] ∧ (∀ x ∈ [(1 : ℚ), 2, 0, 0, 5], x ≤ v) ∧
      ∃ hi : i < [(1 : ℚ), 2, 0, 0, 5].length,
        [(1 : ℚ), 2, 0, 0, 5].get ⟨i, hi⟩ = v ∧
        ∀ j (hj : j < [(1 : ℚ), 2, 0, 0, 5].length), i < j →
          [(1 : ℚ), 2, 0, 0, 5].get ⟨j, hj⟩ ≠ v) :=
  ⟨find_min_find_max_last_occurrence.1 [(1 : ℚ), 2, 0, 0, 5] (by decide),
   find_min_find_max_last_occurrence.2.1 [(1 : ℚ), 2, 0, 0, 5] (by decide)⟩

/-- C2: for every non-empty dataset (with the extreme searches and date
lookups succeeding, which they do on non-empty data with parseable dates),
the average-low and average-high fields of the overview are the column
mean converted to Celsius — a conversion that already rounds to one
decimal — and then rounded to one decimal a second time, and exactly this
double-rounded value is formatted into the output. -/
theorem generate_summary_double_rounded_averages :
    ∀ (weather_data : List DailyRecord) (v1 v2 : ℚ) (i1 i2 : ℕ) (d1 d2 : String),
      find_min (weather_data.map (fun day => day.min_temp)) = some (v1, i1) →
      find_max (weather_data.map (fun day => day.max_temp)) = some (v2, i2) →
      convert_date (weather_data.getD i1 ⟨"", 0, 0⟩).date = some d1 →
      convert_date (weather_data.getD i2 ⟨"", 0, 0⟩).date = some d2 →
      generate_summary weather_data =
        some (toString weather_data.length ++ " Day Overview\n" ++
          "  The lowest temperature will be " ++ format_temperature (convert_f_to_c v1) ++
          ", and will occur on " ++ d1 ++ ".\n" ++
          "  The highest temperature will be " ++ format_temperature (convert_f_to_c v2) ++
          ", and will occur on " ++ d2 ++ ".\n" ++
          "  The average low this week is " ++
          format_temperature (pyRound1 (convert_f_to_c
            (calculate_mean (weather_data.map (fun day => day.min_temp))))) ++ ".\n" ++
          "  The average high this week is " ++
          format_temperature (pyRound1 (convert_f_to_c
            (calculate_mean (weather_data.map (fun day => day.max_temp))))) ++ ".\n") :=
  fun weather_data v1 v2 i1 i2 d1 d2 h1 h2 h3 h4 =>
    generate_summary_eq weather_data v1 v2 i1 i2 d1 d2 h1 h2 h3 h4

/-- Witness for C2 at a one-row dataset. -/
theorem generate_summary_double_rounded_averages_witness :
    generate_summary [⟨"2021-07-05", 50, 70⟩] =
      some (toString ([⟨"2021-07-05", 50, 70⟩] : List DailyRecord).length ++ " Day Overview\n" ++
        "  The lowest temperature will be " ++ format_temperature (convert_f_to_c 50) ++
        ", and will occur on " ++ "Monday 05 July 2021" ++ ".\n" ++
        "  The highest temperature will be " ++ format_temperature (convert_f_to_c 70) ++
        ", and will occur on " ++ "Monday 05 July 2021" ++ ".\n" ++
        "  The average low this week is " ++
        format_temperature (pyRound1 (convert_f_to_c
          (calculate_mean (([⟨"2021-07-05", 50, 70⟩] : List DailyRecord).map
            (fun day => day.min_temp))))) ++ ".\n" ++
        "  The average high this week is " ++
        format_temperature (pyRound1 (convert_f_to_c
          (calculate_mean (([⟨"2021-07-05", 50, 70⟩] : List DailyRecord).map
            (fun day => day.max_temp))))) ++ ".\n") :=
  generate_summary_double_rounded_averages [⟨"2021-07-05", 50, 70⟩] 50 70 0 0
    "Monday 05 July 2021" "Monday 05 July 2021" (by decide) (by decide) (by decide) (by decide)

set_option maxRecDepth 20000 in
/-- C3: on the two-row dataset `[["2021-07-05", 50, 70], ["2021-07-06", 30, 90]]`
the overview reports 30 °F (converted, suffixed) as the lowest on
"Tuesday 06 July 2021", 90 °F likewise on the same date, and the averages
over `[50, 30]` and `[70, 90]`; the extreme indices resolve back to the
second record. -/
theorem generate_summary_two_row_example :
    find_min [(50 : ℚ), 30] = some (30, 1) ∧
    find_max [(70 : ℚ), 90] = some (90, 1) ∧
    generate_summary [⟨"2021-07-05", 50, 70⟩, ⟨"2021-07-06", 30, 90⟩] =
      some ("2 Day Overview\n" ++
        "  The lowest temperature will be -1.1°C, and will occur on Tuesday 06 July 2021.\n" ++
        "  The highest temperature will be 32.2°C, and will occur on Tuesday 06 July 2021.\n" ++
        "  The average low this week is 4.4°C.\n" ++
        "  The average high this week is 26.7°C.\n") := by
  refine ⟨by decide, by decide, ?_⟩
  have happ := generate_summary_eq
    [⟨"2021-07-05", 50, 70⟩, ⟨"2021-07-06", 30, 90⟩] 30 90 1 1
    "Tuesday 06 July 2021" "Tuesday 06 July 2021"
    (by decide) (by decide) (by decide) (by decide)
  rw [happ]
  rw [show ([⟨"2021-07-05", 50, 70⟩, ⟨"2021-07-06", 30, 90⟩] : List DailyRecord).map
        (fun day => day.min_temp) = [50, 30] from rfl]
  rw [show ([⟨"2021-07-05", 50, 70⟩, ⟨"2021-07-06", 30, 90⟩] : List DailyRecord).map
        (fun day => day.max_temp) = [70, 90] from rfl]
  have m1 : calculate_mean [(50 : ℚ), 30] = 40 := by
    unfold calculate_mean; rw [if_neg (List.cons_ne_nil _ _)]; norm_num
  have m2 : calculate_mean [(70 : ℚ), 90] = 80 := by
    unfold calculate_mean; rw [if_neg (List.cons_ne_nil _ _)]; norm_num
  have e1 : convert_f_to_c (30 : ℚ) = -11/10 := by
    unfold convert_f_to_c pyRound1 roundHalfEven; norm_num
  have e2 : convert_f_to_c (90 : ℚ) = 161/5 := by
    unfold convert_f_to_c pyRound1 roundHalfEven; norm_num
  have e3 : convert_f_to_c (40 : ℚ) = 22/5 := by
    unfold convert_f_to_c pyRound1 roundHalfEven; norm_num
  have e4 : convert_f_to_c (80 : ℚ) = 267/10 := by
    unfold convert_f_to_c pyRound1 roundHalfEven; norm_num
  have p3 : pyRound1 (22/5 : ℚ) = 22/5 := by unfold pyRound1 roundHalfEven; norm_num
  have p4 : pyRound1 (267/10 : ℚ) = 267/10 := by unfold pyRound1 roundHalfEven; norm_num
  rw [m1, m2, e1, e2, e3, e4, p3, p4]
  have f1 : format_temperature (-11/10 : ℚ) = "-1.1°C" := by
    unfold format_temperature floatRepr
    rw [show ⌊(-11/10 : ℚ) * 10⌋ = -11 from by norm_num]
    decide
  have f2 : format_temperature (161/5 : ℚ) = "32.2°C" := by
    unfold format_temperature floatRepr
    rw [show ⌊(161/5 : ℚ) * 10⌋ = 322 from by norm_num]
    decide
  have f3 : format_temperature (22/5 : ℚ) = "4.4°C" := by
    unfold format_temperature floatRepr
    rw [show ⌊(22/5 : ℚ) * 10⌋ = 44 from by norm_num]
    decide
  have f4 : format_temperature (267/10 : ℚ) = "26.7°C" := by
    unfold format_temperature floatRepr
    rw [show ⌊(267/10 : ℚ) * 10⌋ = 267 from by norm_num]
    decide
  rw [f1, f2, f3, f4]
  decide


/-- C4: `convert_f_to_c` returns `(v - 32) * 5/9` rounded to one decimal
place — the result is an integer number of tenths within `1/20` of the
exact value — and `convert_f_to_c 32 = 0`, `convert_f_to_c 212 = 100`. -/
theorem convert_f_to_c_rounds_to_one_decimal :
    (∀ v : ℚ, ∃ t : ℤ, convert_f_to_c v = (t : ℚ) / 10 ∧
      |convert_f_to_c v - (v - 32) * 5 / 9| ≤ 1/20) ∧
    convert_f_to_c 32 = 0 ∧ convert_f_to_c 212 = 100 := by
  refine ⟨fun v => ⟨roundHalfEven ((v - 32) * 5 / 9 * 10), rfl, abs_pyRound1_sub_le _⟩, ?_, ?_⟩
  · unfold convert_f_to_c pyRound1 roundHalfEven; norm_num
  · unfold convert_f_to_c pyRound1 roundHalfEven; norm_num

/-- Witness for C4 at `v = 50`. -/
theorem convert_f_to_c_rounds_to_one_decimal_witness :
    ∃ t : ℤ, convert_f_to_c 50 = (t : ℚ) / 10 ∧
      |convert_f_to_c 50 - ((50 : ℚ) - 32) * 5 / 9| ≤ 1/20 :=
  convert_f_to_c_rounds_to_one_decimal.1 50

/-- C5: `calculate_mean` returns the arithmetic mean `sum/length` on every
non-empty list and the sentinel `0` on the empty list;
`calculate_mean [] = 0` and `calculate_mean [1,2,3] = 2`. -/
theorem calculate_mean_policy :
    calculate_mean [] = 0 ∧
    (∀ l : List ℚ, l ≠ [] → calculate_mean l = l.sum / (l.length : ℚ)) ∧
    calculate_mean [1, 2, 3] = 2 := by
  refine ⟨rfl, fun l h => ?_, ?_⟩
  · unfold calculate_mean; rw [if_neg h]
  · unfold calculate_mean; rw [if_neg (List.cons_ne_nil _ _)]; norm_num

/-- Witness for C5 at the list `[1, 2, 3]`. -/
theorem calculate_mean_policy_witness :
    calculate_mean [(1 : ℚ), 2, 3] =
      [(1 : ℚ), 2, 3].sum / (([(1 : ℚ), 2, 3].length : ℕ) : ℚ) :=
  calculate_mean_policy.2.1 [(1 : ℚ), 2, 3] (by decide)

/-- C6: on empty input `find_min` and `find_max` return the empty result
`none` (the empty tuple in the source), which is distinguishable from
every valid `(value, index)` pair, and no exception is raised. -/
theorem find_empty_returns_sentinel :
    find_min [] = none ∧ find_max [] = none ∧
    ∀ (v : ℚ) (i : ℕ), some (v, i) ≠ (none : Option (ℚ × ℕ)) :=
  ⟨rfl, rfl, fun _ _ h => Option.noConfusion h⟩

/-- Witness for C6 at the pair `(0, 0)`. -/
theorem find_empty_returns_sentinel_witness :
    some ((0 : ℚ), (0 : ℕ)) ≠ (none : Option (ℚ × ℕ)) :=
  find_empty_returns_sentinel.2.2 0 0

/-- C7: `generate_summary` on the empty dataset returns exactly the string
"No data available." (the empty-dataset branch short-circuits before any
statistics function is applied). -/
theorem generate_summary_empty_dataset :
    generate_summary [] = some "No data available." := rfl

/-- C8 counterexample: the claim says `convert_date` fails with a
`ParseError` on every input that is not a valid ISO date (a `YYYY-MM-DD`
string, per the glossary), but the program accepts the datetime string
"2021-07-06T05:30:00" — not a date-only ISO date — and renders its date
part instead of failing. -/
theorem convert_date_accepts_datetime_input :
    convert_date "2021-07-06T05:30:00" = some "Tuesday 06 July 2021" := by decide

/-- C8 (amended): `convert_date` renders every input accepted by the ISO
parse (`fromisoformat`) as "<Weekday> <DD> <Month> <YYYY>" with the day
zero-padded to two digits — `convert_date "2021-07-06" =
some "Tuesday 06 July 2021"` — where the accepted inputs are the valid
ISO dates optionally followed by a time component (which renders the same
date, e.g. "2021-07-06T05:30:00"); it fails (models a `ParseError`)
exactly on the inputs the ISO parse rejects. -/
theorem convert_date_format_and_errors :
    convert_date "2021-07-06" = some "Tuesday 06 July 2021" ∧
    (∀ s y m d, fromisoformat s = some (y, m, d) →
      convert_date s = some (weekdayName (zellerDow y m d) ++ " " ++ pad2 d ++ " " ++
        monthName m ++ " " ++ toString y)) ∧
    (∀ s, fromisoformat s = none → convert_date s = none) ∧
    convert_date "2021-07-06T05:30:00" = some "Tuesday 06 July 2021" ∧
    convert_date "2021-02-30" = none ∧ convert_date "not-a-date" = none := by
  refine ⟨by decide, fun s y m d hp => ?_, fun s hp => ?_, by decide, by decide, by decide⟩
  · unfold convert_date; rw [hp]; rfl
  · unfold convert_date; rw [hp]; rfl

/-- Witness for C8 at the date "2021-01-02". -/
theorem convert_date_format_and_errors_witness :
    convert_date "2021-01-02" = some (weekdayName (zellerDow 2021 1 2) ++ " " ++ pad2 2 ++ " " ++
      monthName 1 ++ " " ++ toString 2021) :=
  convert_date_format_and_errors.2.1 "2021-01-02" 2021 1 2 (by decide)

/-- C9: for every dataset whose dates parse, `generate_daily_summary` emits
exactly one block per record, in input order, each block being the dashed
header with the formatted date, the converted minimum-temperature line,
the converted maximum-temperature line, and a blank line. -/
theorem generate_daily_summary_in_order_blocks :
    ∀ weather_data : List DailyRecord,
      (∀ day ∈ weather_data, (convert_date day.date).isSome = true) →
      generate_daily_summary weather_data = some (dailyBlocks weather_data) := by
  intro weather_data h
  unfold generate_daily_summary
  rw [daily_fold weather_data "" h, Option.some.injEq]
  exact str_empty_append _

/-- Witness for C9 at a one-row dataset. -/
theorem generate_daily_summary_in_order_blocks_witness :
    generate_daily_summary [⟨"2021-07-05", 50, 70⟩] =
      some (dailyBlocks [⟨"2021-07-05", 50, 70⟩]) :=
  generate_daily_summary_in_order_blocks [⟨"2021-07-05", 50, 70⟩] (by decide)

/-- C10: `generate_daily_summary` on the empty dataset returns the empty
string (no empty-dataset message is produced). -/
theorem generate_daily_summary_empty :
    generate_daily_summary [] = some "" := rfl

end Weather
